import Mathlib

/-!
Shallow embedding of the museum-system firmware core: the dual-motor
actuator state machine, the MQTT command dispatcher, the connection
monitor and the reconnect backoff logic, translated from
`src/esp32/devices/wifi/esp32_mqtt_controller_MOTORS/` (hardware.cpp,
mqtt_manager.cpp, connection_monitor.cpp, config.cpp) and
`src/esp32/devices/wifi/esp32_mqtt_controller_RELAY/wifi_manager.cpp`.

Machine integers: C `int`/`long` are modelled as `Int`; `unsigned long`
(the 32-bit millisecond clock and the ramp duration) as `Nat`, with
explicit `% 2 ^ 32` wrap where the C code mixes signed and unsigned
operands (the ramp interpolation).  The millisecond clock is assumed
monotone and below the 49.7-day 32-bit rollover, so unsigned
subtractions of timestamps are modelled by truncated `Nat` subtraction.
-/

namespace Museum

/-- Configuration constants from `esp32_mqtt_controller_MOTORS/config.cpp`. -/
def SMOOTH_STEP : Int := 8

def SMOOTH_DELAY : Nat := 15

def MQTT_RETRY_INTERVAL : Nat := 2000

def MAX_RETRY_INTERVAL : Nat := 30000

def CONNECTION_CHECK_INTERVAL : Nat := 5000

def MAX_MQTT_ATTEMPTS : Nat := 3

/-- `BASE_TOPIC_PREFIX` from `esp32_mqtt_controller_MOTORS/config.cpp`. -/
def BASE_TOPIC : String := "room1/"

/-- Constants from `esp32_mqtt_controller_RELAY/config.cpp` (the WiFi
reconnect claim cites the RELAY variant, whose attempt cap is 10). -/
def WIFI_RETRY_INTERVAL : Nat := 3000

def MAX_WIFI_ATTEMPTS : Nat := 10

/-- Reduction of an `Int` to the 32-bit unsigned value it converts to in C
(two's complement wrap). -/
def toUInt32 (z : Int) : Nat := (z % (2 ^ 32 : Int)).toNat

/-- Reinterpretation of a 32-bit unsigned value as a C `int`
(two's complement). -/
def toInt32 (n : Nat) : Int :=
  let m : Nat := n % 2 ^ 32
  if m < 2 ^ 31 then (m : Int) else (m : Int) - 2 ^ 32

/-- Digit-accumulation loop of C `atoi`/`atol`. -/
def digitsVal : List Char → Int → Int
  | c :: cs, acc => if c.isDigit then digitsVal cs (acc * 10 + ((c.toNat : Int) - ('0'.toNat : Int))) else acc
  | [], acc => acc

/-- C `atoi`/`atol`: skip leading whitespace, optional sign, then digits;
returns 0 on no digits. -/
def atoiChars : List Char → Int
  | [] => 0
  | c :: cs =>
    if c = ' ' ∨ c = '\t' ∨ c = '\n' ∨ c = '\r' then atoiChars cs
    else if c = '-' then - digitsVal cs 0
    else if c = '+' then digitsVal cs 0
    else digitsVal (c :: cs) 0

def atoi (s : String) : Int := atoiChars s.toList

/-- List-based string primitives (the library versions are not
kernel-reducible): substring from the start, substring to the end, test
for a leading and for a trailing pattern. -/
def strTake (s : String) (n : Nat) : String := String.mk (s.toList.take n)

def strDrop (s : String) (n : Nat) : String := String.mk (s.toList.drop n)

def strStartsWith (s pat : String) : Bool := pat.toList.isPrefixOf s.toList

def strEndsWith (s pat : String) : Bool := pat.toList.isSuffixOf s.toList

/-- `s[0]` on a C string: its first character, or the NUL terminator when
the string is empty. -/
def headChar (s : String) : Char := s.toList.headD (Char.ofNat 0)

/-- Arduino `String.indexOf(':')`: index of the first colon, or -1. -/
def indexOfColonAux : List Char → Nat → Int
  | [], _ => -1
  | c :: cs, i => if c = ':' then (i : Int) else indexOfColonAux cs (i + 1)

def indexOfColon (s : String) : Int := indexOfColonAux s.toList 0

/-- `MotorState` from `esp32_mqtt_controller_MOTORS/hardware.h`. -/
structure MotorState where
  enabled : Bool
  speed : Int
  currentSpeed : Int
  targetSpeed : Int
  direction : Char
  lastUpdate : Nat
  pendingDirectionChange : Bool
  newDirection : Char
  savedSpeed : Int
  rampActive : Bool
  rampStartTime : Nat
  rampDurationMs : Nat
  rampStartSpeed : Int
  deriving Repr, DecidableEq

/-- The initializer `{false, 0, 0, 0, 'S', 0, false, 0, 0, false, 0, 0, 0}`
from hardware.cpp. -/
def initialMotorState : MotorState :=
  { enabled := false, speed := 0, currentSpeed := 0, targetSpeed := 0,
    direction := 'S', lastUpdate := 0, pendingDirectionChange := false,
    newDirection := Char.ofNat 0, savedSpeed := 0, rampActive := false,
    rampStartTime := 0, rampDurationMs := 0, rampStartSpeed := 0 }

/-- The PWM duty cycles and enable lines written by the sketch. -/
structure Pins where
  motor1Left : Int
  motor1Right : Int
  motor2Left : Int
  motor2Right : Int
  motor1Enable : Bool
  motor2Enable : Bool
  deriving Repr, DecidableEq

def initialPins : Pins :=
  { motor1Left := 0, motor1Right := 0, motor2Left := 0, motor2Right := 0,
    motor1Enable := false, motor2Enable := false }

/-- The hardware-facing global state of the MOTORS sketch. -/
structure Hw where
  motor1 : MotorState
  motor2 : MotorState
  pins : Pins
  hardwareOff : Bool
  deriving Repr, DecidableEq

def initialHw : Hw :=
  { motor1 := initialMotorState, motor2 := initialMotorState,
    pins := initialPins, hardwareOff := false }

/-- Arduino `map(x, 0, 100, 0, 255)` followed by `constrain(_, 0, 255)`;
C division truncates toward zero. -/
def mapConstrain (speed : Int) : Int :=
  let pwmValue := Int.tdiv (speed * 255) 100
  max 0 (min pwmValue 255)

/-- `updateMotorPWM` from hardware.cpp: writes the two duty cycles of the
given motor; a direction other than 'L'/'R' (with nonzero speed) writes
nothing. -/
def updateMotorPWM (motorNum : Nat) (speed : Int) (direction : Char) (p : Pins) : Pins :=
  let pwmValue := mapConstrain speed
  if motorNum = 1 then
    if speed = 0 then { p with motor1Left := 0, motor1Right := 0 }
    else if direction = 'L' then { p with motor1Left := pwmValue, motor1Right := 0 }
    else if direction = 'R' then { p with motor1Left := 0, motor1Right := pwmValue }
    else p
  else if motorNum = 2 then
    if speed = 0 then { p with motor2Left := 0, motor2Right := 0 }
    else if direction = 'L' then { p with motor2Left := pwmValue, motor2Right := 0 }
    else if direction = 'R' then { p with motor2Left := 0, motor2Right := pwmValue }
    else p
  else p

/-- `turnOffHardware` from hardware.cpp: enable lines low, all PWM outputs
zero, both motor states reset to the initializer, `hardwareOff = true`. -/
def turnOffHardware (hw : Hw) : Hw :=
  { motor1 := initialMotorState, motor2 := initialMotorState,
    pins := initialPins, hardwareOff := true }

/-- The motor-state mutation shared verbatim by `controlMotor1` and
`controlMotor2` in hardware.cpp (the two functions are per-motor copies of
the same logic; pin writes are handled by the wrappers below). -/
def controlMotorCore (command speedArg directionArg rampTime : String) (now : Nat)
    (m : MotorState) : MotorState :=
  if command = "ON" then
    let m := { m with enabled := true, speed := atoi speedArg,
                      direction := headChar directionArg,
                      pendingDirectionChange := false }
    let rampDuration := toUInt32 (atoi rampTime)
    if rampDuration > 0 then
      { m with rampActive := true, rampDurationMs := rampDuration,
               rampStartTime := now, rampStartSpeed := m.currentSpeed,
               targetSpeed := m.speed }
    else
      { m with targetSpeed := m.speed, rampActive := false }
  else if command = "OFF" then
    { m with enabled := false, speed := 0, targetSpeed := 0,
             pendingDirectionChange := false, rampActive := false }
  else if command = "SPEED" then
    if m.enabled then
      { m with speed := atoi speedArg, targetSpeed := atoi speedArg, rampActive := false }
    else m
  else if command = "DIR" then
    if m.enabled then
      let m := { m with rampActive := false }
      let newDir := headChar directionArg
      if m.direction = newDir then m
      else if m.currentSpeed > 0 then
        { m with savedSpeed := m.speed, newDirection := newDir,
                 pendingDirectionChange := true, targetSpeed := 0 }
      else
        { m with direction := newDir }
    else m
  else m

/-- `controlMotor1` from hardware.cpp: the `ON` branch also raises the
motor-1 enable line and clears `hardwareOff`. -/
def controlMotor1 (command speedArg directionArg rampTime : String) (now : Nat)
    (hw : Hw) : Hw :=
  let m := controlMotorCore command speedArg directionArg rampTime now hw.motor1
  if command = "ON" then
    { hw with motor1 := m, pins := { hw.pins with motor1Enable := true },
              hardwareOff := false }
  else
    { hw with motor1 := m }

/-- `controlMotor2` from hardware.cpp. -/
def controlMotor2 (command speedArg directionArg rampTime : String) (now : Nat)
    (hw : Hw) : Hw :=
  let m := controlMotorCore command speedArg directionArg rampTime now hw.motor2
  if command = "ON" then
    { hw with motor2 := m, pins := { hw.pins with motor2Enable := true },
              hardwareOff := false }
  else
    { hw with motor2 := m }

/-- Result of one motor's block inside `updateMotorSmoothly`: the new
state, whether the block executed the early `return` (skipping the rest of
the function), and the PWM write it issued, if any. -/
structure StepOut where
  state : MotorState
  earlyReturn : Bool
  pwmWrite : Option (Int × Char)
  deriving Repr, DecidableEq

/-- Steps 2 and 3 of a motor's block in `updateMotorSmoothly`
(hardware.cpp): apply a pending direction change once stopped, then step
`currentSpeed` toward `targetSpeed` by at most `SMOOTH_STEP`. -/
def stepMotorRest (now : Nat) (m : MotorState) : StepOut :=
  let m :=
    if m.pendingDirectionChange ∧ m.currentSpeed = 0 then
      { m with direction := m.newDirection, targetSpeed := m.savedSpeed,
               pendingDirectionChange := false }
    else m
  if m.currentSpeed ≠ m.targetSpeed then
    let cur :=
      if m.currentSpeed < m.targetSpeed then min (m.currentSpeed + SMOOTH_STEP) m.targetSpeed
      else max (m.currentSpeed - SMOOTH_STEP) m.targetSpeed
    { state := { m with currentSpeed := cur, lastUpdate := now },
      earlyReturn := false, pwmWrite := some (cur, m.direction) }
  else
    { state := m, earlyReturn := false, pwmWrite := none }

/-- One motor's block in `updateMotorSmoothly` (hardware.cpp).  The ramp
interpolation follows the C arithmetic exactly: `deltaSpeed` (a signed
`long`) is converted to `unsigned long` for the multiplication by
`elapsedTime`, the product wraps mod 2^32, the division is unsigned, and
the quotient is cast back to `int`. -/
def stepMotor (now : Nat) (m : MotorState) : StepOut :=
  if now - m.lastUpdate ≥ SMOOTH_DELAY then
    if m.rampActive then
      if now ≥ m.rampStartTime + m.rampDurationMs then
        stepMotorRest now { m with currentSpeed := m.targetSpeed, rampActive := false }
      else
        let elapsedTime := now - m.rampStartTime
        let deltaSpeed := m.targetSpeed - m.rampStartSpeed
        let cur := m.rampStartSpeed +
          toInt32 (toUInt32 deltaSpeed * elapsedTime % 2 ^ 32 / m.rampDurationMs)
        { state := { m with currentSpeed := cur, lastUpdate := now },
          earlyReturn := true, pwmWrite := some (cur, m.direction) }
    else stepMotorRest now m
  else
    { state := m, earlyReturn := false, pwmWrite := none }

def applyWrite (motorNum : Nat) (w : Option (Int × Char)) (p : Pins) : Pins :=
  match w with
  | some (s, d) => updateMotorPWM motorNum s d p
  | none => p

/-- `updateMotorSmoothly` from hardware.cpp: motor 1's block runs first;
its early `return` (ramp in progress) skips motor 2's block entirely. -/
def updateMotorSmoothly (now : Nat) (hw : Hw) : Hw :=
  let r1 := stepMotor now hw.motor1
  let hw1 := { hw with motor1 := r1.state, pins := applyWrite 1 r1.pwmWrite hw.pins }
  if r1.earlyReturn then hw1
  else
    let r2 := stepMotor now hw1.motor2
    { hw1 with motor2 := r2.state, pins := applyWrite 2 r2.pwmWrite hw1.pins }

/-- The payload-parsing block of `mqttCallback`
(`esp32_mqtt_controller_MOTORS/mqtt_manager.cpp`): returns the final
`(command, speed, direction)` strings.  Defaults are `speed = "50"`,
`direction = "L"`.  For `ON`, everything after the second colon stays part
of the direction string; no further field is ever split off. -/
def parseCommand (message : String) : String × String × String :=
  let command := message
  let speed := "50"
  let direction := "L"
  let firstColon := indexOfColon command
  if firstColon > 0 then
    let baseCommand := strTake command firstColon.toNat
    let params := strDrop command (firstColon.toNat + 1)
    if baseCommand = "ON" then
      let secondColon := indexOfColon params
      if secondColon > 0 then
        (baseCommand, strTake params secondColon.toNat, strDrop params (secondColon.toNat + 1))
      else
        (baseCommand, params, direction)
    else if baseCommand = "DIR" then (baseCommand, speed, params)
    else if baseCommand = "SPEED" then (baseCommand, params, direction)
    else (command, speed, direction)
  else (command, speed, direction)

/-- The command-execution part of `mqttCallback` (mqtt_manager.cpp):
returns the mutated hardware state and the local `feedbackMessage`.
`controlMotor1`/`controlMotor2` are invoked with three arguments, so the
`rampTime` parameter takes its declared default `"0"` (hardware.h). -/
def dispatchResult (topicStr message : String) (now : Nat) (hw : Hw) : Hw × String :=
  if strStartsWith topicStr BASE_TOPIC then
    let deviceType := strDrop topicStr BASE_TOPIC.toList.length
    if deviceType = "STOP" then
      (turnOffHardware hw, "ALL_HARDWARE_STOPPED")
    else
      let parsed := parseCommand message
      let command := parsed.1
      let speedArg := parsed.2.1
      let directionArg := parsed.2.2
      if deviceType = "motor1" then
        if command = "ON" ∨ command = "OFF" ∨ command = "SPEED" ∨ command = "DIR" then
          (controlMotor1 command speedArg directionArg "0" now hw, "OK")
        else (hw, "ERROR_UNKNOWN_COMMAND")
      else if deviceType = "motor2" then
        if command = "ON" ∨ command = "OFF" ∨ command = "SPEED" ∨ command = "DIR" then
          (controlMotor2 command speedArg directionArg "0" now hw, "OK")
        else (hw, "ERROR_UNKNOWN_COMMAND")
      else (hw, "ERROR_UNKNOWN_DEVICE")
  else (hw, "ERROR_UNKNOWN_TOPIC")

/-- A `client.publish(topic, payload, retained)` call. -/
structure Pub where
  topic : String
  payload : String
  retained : Bool
  deriving Repr, DecidableEq

/-- `mqttCallback` from mqtt_manager.cpp: messages on topics ending in
"/status" are ignored; otherwise the command is executed and the single
`feedbackMessage` is published to `basePrefix + "status"` — but only when
the client is still connected. -/
def mqttCallback (topic message : String) (clientConnected : Bool) (now : Nat)
    (hw : Hw) : Hw × List Pub :=
  if strEndsWith topic "/status" then (hw, [])
  else
    let statusTopic := BASE_TOPIC ++ "status"
    let r := dispatchResult topic message now hw
    if clientConnected then (r.1, [{ topic := statusTopic, payload := r.2, retained := false }])
    else (r.1, [])

/-- The connectivity flags of the MOTORS sketch (wifi_manager /
mqtt_manager globals read by connection_monitor.cpp). -/
structure ConnState where
  wifiConnected : Bool
  mqttConnected : Bool
  lastConnectionCheck : Nat
  deriving Repr, DecidableEq

/-- `monitorConnections` from
`esp32_mqtt_controller_MOTORS/connection_monitor.cpp`: every
`CONNECTION_CHECK_INTERVAL` ms it samples the physical WiFi status and
updates the `wifiConnected`/`mqttConnected` flags. -/
def monitorConnections (wifiStatusConnected : Bool) (now : Nat) (c : ConnState) : ConnState :=
  if now - c.lastConnectionCheck ≥ CONNECTION_CHECK_INTERVAL then
    let c := { c with lastConnectionCheck := now }
    if wifiStatusConnected = false ∧ c.wifiConnected = true then
      { c with wifiConnected := false, mqttConnected := false }
    else if wifiStatusConnected = true ∧ c.wifiConnected = false then
      { c with wifiConnected := true }
    else c
  else c

/-- Modelled from the spec: the MOTORS variant's main sketch — the file
that calls `monitorConnections` and `turnOffHardware` each loop pass — is
not under `src/` (only connection_monitor.cpp and hardware.cpp are, and
the `turnOffHardware` it would call logs "All motors turned OFF due to
disconnection").  Per spec section 4.4, the Safety Monitor "forces all
actuators to the Stopped/all-off state when: (a) WiFi transitions from
connected to disconnected, (b) broker connection is lost": this tick runs
the source `monitorConnections` and, on either condition, the source
`turnOffHardware`. -/
def safetyMonitorTick (wifiStatusConnected clientConnected : Bool) (now : Nat)
    (c : ConnState) (hw : Hw) : ConnState × Hw :=
  let c' := monitorConnections wifiStatusConnected now c
  if (c.wifiConnected = true ∧ c'.wifiConnected = false) ∨
     (c.mqttConnected = true ∧ clientConnected = false) then
    (c', turnOffHardware hw)
  else (c', hw)

/-- The `connectToMqtt` state (mqtt_manager.cpp globals and statics). -/
structure MqttState where
  clientConnected : Bool
  mqttConnected : Bool
  mqttAttempts : Nat
  mqttRetryInterval : Nat
  lastMqttAttempt : Nat
  deriving Repr, DecidableEq

/-- Fresh `connectToMqtt` state: `mqttAttempts = 0`,
`mqttRetryInterval = MQTT_RETRY_INTERVAL` (the static initializers). -/
def initialMqttState : MqttState :=
  { clientConnected := false, mqttConnected := false, mqttAttempts := 0,
    mqttRetryInterval := MQTT_RETRY_INTERVAL, lastMqttAttempt := 0 }

/-- `connectToMqtt` from `esp32_mqtt_controller_MOTORS/mqtt_manager.cpp`.
`succeed` is the outcome of `client.connect`; `none` models
`ESP.restart()` after `MAX_MQTT_ATTEMPTS` consecutive failures.  (The
subscribe/publish side effects of a successful connect are not needed by
any claim and are omitted.) -/
def connectToMqtt (wifiConnected wifiStatusConnected succeed : Bool) (now : Nat)
    (s : MqttState) : Option MqttState :=
  if wifiConnected = false ∨ wifiStatusConnected = false then some s
  else if s.clientConnected = false ∧ now - s.lastMqttAttempt ≥ s.mqttRetryInterval then
    if succeed then
      some { s with clientConnected := true, mqttConnected := true,
                    mqttAttempts := 0, mqttRetryInterval := MQTT_RETRY_INTERVAL,
                    lastMqttAttempt := now }
    else
      let attempts := s.mqttAttempts + 1
      if attempts ≥ MAX_MQTT_ATTEMPTS then none
      else
        some { s with mqttAttempts := attempts,
                      mqttRetryInterval := min (s.mqttRetryInterval * 2) MAX_RETRY_INTERVAL,
                      mqttConnected := false, lastMqttAttempt := now }
  else some s

/-- The `reconnectWiFi` state
(`esp32_mqtt_controller_RELAY/wifi_manager.cpp` globals and statics). -/
structure WifiState where
  wifiConnected : Bool
  wifiAttempts : Nat
  wifiRetryInterval : Nat
  lastWifiAttempt : Nat
  deriving Repr, DecidableEq

def initialWifiState : WifiState :=
  { wifiConnected := false, wifiAttempts := 0,
    wifiRetryInterval := WIFI_RETRY_INTERVAL, lastWifiAttempt := 0 }

/-- `reconnectWiFi` from `esp32_mqtt_controller_RELAY/wifi_manager.cpp`.
`succeed` is the outcome of `initializeWiFi`; `none` models
`ESP.restart()` at `MAX_WIFI_ATTEMPTS`.  Note the attempt counter is
incremented before the attempt, and the interval is doubled before the
restart check. -/
def reconnectWiFi (wifiStatusConnected succeed : Bool) (now : Nat)
    (s : WifiState) : Option WifiState :=
  if wifiStatusConnected = false ∧ now - s.lastWifiAttempt ≥ s.wifiRetryInterval then
    let s := { s with lastWifiAttempt := now, wifiAttempts := s.wifiAttempts + 1 }
    if succeed then
      some { s with wifiAttempts := 0, wifiRetryInterval := WIFI_RETRY_INTERVAL,
                    wifiConnected := true }
    else
      let s := { s with wifiRetryInterval := min (s.wifiRetryInterval * 2) MAX_RETRY_INTERVAL,
                        wifiConnected := false }
      if s.wifiAttempts ≥ MAX_WIFI_ATTEMPTS then none
      else some s
  else some s

/-- An externally driven event of the single-threaded loop: an inbound
MQTT message handled by `mqttCallback`, or one `updateMotorSmoothly`
pass. -/
inductive Event where
  | message (topic payload : String) (now : Nat)
  | tick (now : Nat)
  deriving Repr, DecidableEq

def stepEvent (hw : Hw) : Event → Hw
  | .message topic payload now => (mqttCallback topic payload true now hw).1
  | .tick now => updateMotorSmoothly now hw

/-- Run of the loop from a state through a list of events. -/
def run (evs : List Event) (hw : Hw) : Hw := evs.foldl stepEvent hw

/-- The speed parameter a message delivers to the motors: `atoi` of the
parsed positional speed string. -/
def msgSpeedVal (payload : String) : Int := atoi (parseCommand payload).2.1

/-- A grammar-conforming event: inbound messages carry a speed in
[0, 100] (spec section 6: `ON[:<speed 0-100>...]`, `SPEED:<0-100>`);
ticks are unconstrained. -/
def eventOK : Event → Prop
  | .message _ payload _ => 0 ≤ msgSpeedVal payload ∧ msgSpeedVal payload ≤ 100
  | .tick _ => True

instance : DecidablePred eventOK := by
  intro e
  cases e with
  | message t p n => exact inferInstanceAs (Decidable (_ ∧ _))
  | tick n => exact inferInstanceAs (Decidable True)

/-- Fold of `updateMotorSmoothly` over a list of tick times. -/
def runTicks (ts : List Nat) (hw : Hw) : Hw :=
  ts.foldl (fun h t => updateMotorSmoothly t h) hw

/-- Motor-1 `(currentSpeed, direction)` observed after each tick of a
list of tick times. -/
def traceTicks (ts : List Nat) (hw : Hw) : List (Int × Char) :=
  match ts with
  | [] => []
  | t :: rest =>
    let hw' := updateMotorSmoothly t hw
    (hw'.motor1.currentSpeed, hw'.motor1.direction) :: traceTicks rest hw'

/-! ## Helper lemmas -/

theorem controlMotor1_motor1 (c s d r : String) (n : Nat) (hw : Hw) :
    (controlMotor1 c s d r n hw).motor1 = controlMotorCore c s d r n hw.motor1 := by
  unfold controlMotor1
  split_ifs <;> rfl

theorem controlMotor1_motor2 (c s d r : String) (n : Nat) (hw : Hw) :
    (controlMotor1 c s d r n hw).motor2 = hw.motor2 := by
  unfold controlMotor1
  split_ifs <;> rfl

theorem controlMotor2_motor2 (c s d r : String) (n : Nat) (hw : Hw) :
    (controlMotor2 c s d r n hw).motor2 = controlMotorCore c s d r n hw.motor2 := by
  unfold controlMotor2
  split_ifs <;> rfl

theorem controlMotor2_motor1 (c s d r : String) (n : Nat) (hw : Hw) :
    (controlMotor2 c s d r n hw).motor1 = hw.motor1 := by
  unfold controlMotor2
  split_ifs <;> rfl

theorem rampActive_controlMotorCore_zero (c s d : String) (n : Nat) (m : MotorState)
    (h : m.rampActive = false) : (controlMotorCore c s d "0" n m).rampActive = false := by
  have h0 : toUInt32 (atoi "0") = 0 := by decide
  simp only [controlMotorCore, h0]
  split_ifs <;> simp_all

/-! ## Claims -/

/-- Claim C3, counterexample: for the inbound message `ON:80:R:3000` the
dispatcher does not split off the third positional parameter — the
direction string stays `"R:3000"` — and `controlMotor1` is invoked with
the default `rampTime = "0"`, so no timed ramp of duration 3000 is
activated (`rampActive = false`, `rampDurationMs = 0`). -/
theorem C3_counterexample :
    parseCommand "ON:80:R:3000" = ("ON", "80", "R:3000") ∧
    (mqttCallback "room1/motor1" "ON:80:R:3000" true 0 initialHw).1.motor1.rampActive = false ∧
    (mqttCallback "room1/motor1" "ON:80:R:3000" true 0 initialHw).1.motor1.rampDurationMs = 0 ∧
    (mqttCallback "room1/motor1" "ON:80:R:3000" true 0 initialHw).1.motor1.targetSpeed = 80 := by
  decide

/-- Claim C3, amended: the dispatcher parses at most two positional
parameters (speed, direction); anything after the second colon stays part
of the direction string, and the actuator is always called with the
default `rampTime = "0"`, so an MQTT message never activates a timed ramp
(conjunct 1).  A timed ramp requires calling the actuator directly with
`rampMs > 0`, which then activates a ramp of exactly that duration from
the current speed (conjunct 2).  Omitted parameters default to
speed = "50", direction = "L" (conjunct 3). -/
theorem C3_no_mqtt_ramp :
    (∀ (topic message : String) (conn : Bool) (now : Nat) (hw : Hw),
      hw.motor1.rampActive = false → hw.motor2.rampActive = false →
      (mqttCallback topic message conn now hw).1.motor1.rampActive = false ∧
      (mqttCallback topic message conn now hw).1.motor2.rampActive = false) ∧
    (∀ (sp dir rt : String) (now : Nat) (m : MotorState),
      0 < toUInt32 (atoi rt) →
      (controlMotorCore "ON" sp dir rt now m).rampActive = true ∧
      (controlMotorCore "ON" sp dir rt now m).rampDurationMs = toUInt32 (atoi rt) ∧
      (controlMotorCore "ON" sp dir rt now m).rampStartTime = now ∧
      (controlMotorCore "ON" sp dir rt now m).rampStartSpeed = m.currentSpeed ∧
      (controlMotorCore "ON" sp dir rt now m).targetSpeed = atoi sp) ∧
    parseCommand "ON" = ("ON", "50", "L") := by
  refine ⟨?_, ?_, by decide⟩
  · intro topic message conn now hw h1 h2
    have key : ∀ hw' : Hw, hw'.motor1.rampActive = false → hw'.motor2.rampActive = false →
        (dispatchResult topic message now hw').1.motor1.rampActive = false ∧
        (dispatchResult topic message now hw').1.motor2.rampActive = false := by
      intro hw' g1 g2
      simp only [dispatchResult]
      split_ifs <;>
        simp_all [controlMotor1_motor1, controlMotor1_motor2, controlMotor2_motor1,
          controlMotor2_motor2, rampActive_controlMotorCore_zero, turnOffHardware,
          initialMotorState]
    simp only [mqttCallback]
    split_ifs with hst hc
    · exact ⟨h1, h2⟩
    · exact key hw h1 h2
    · exact key hw h1 h2
  · intro sp dir rt now m h
    unfold controlMotorCore
    rw [if_pos rfl, if_pos h]
    exact ⟨rfl, rfl, rfl, rfl, rfl⟩

/-- Claim C3, witness for the amended theorem. -/
theorem C3_no_mqtt_ramp_witness :
    (initialHw.motor1.rampActive = false ∧ 0 < toUInt32 (atoi "3000")) ∧
    ((mqttCallback "room1/motor1" "ON:80:L" true 0 initialHw).1.motor1.rampActive = false ∧
     (controlMotorCore "ON" "80" "L" "3000" 7 initialMotorState).rampActive = true ∧
     (controlMotorCore "ON" "80" "L" "3000" 7 initialMotorState).rampDurationMs = 3000) := by
  refine ⟨⟨rfl, by decide⟩, ?_, ?_, ?_⟩
  · exact (C3_no_mqtt_ramp.1 "room1/motor1" "ON:80:L" true 0 initialHw rfl rfl).1
  · exact (C3_no_mqtt_ramp.2.1 "80" "L" "3000" 7 initialMotorState (by decide)).1
  · have h := (C3_no_mqtt_ramp.2.1 "80" "L" "3000" 7 initialMotorState (by decide)).2.1
    rw [h]
    decide

/-- Claim C4, counterexample: feedback for a command on `room1/motor1`
goes to the fixed topic `room1/status` (the base prefix plus "status"),
not to the derived per-command channel `room1/motor1/feedback`. -/
theorem C4_counterexample :
    (mqttCallback "room1/motor1" "ON" true 0 initialHw).2.map Pub.topic = ["room1/status"] ∧
    "room1/status" ≠ "room1/motor1" ++ "/feedback" := by
  decide

/-- Claim C4, amended: for every inbound message on a topic not ending in
"/status", while the broker connection is up, the dispatcher publishes
exactly one feedback message, on the fixed topic `<basePrefix>status`
(not on `<commandTopic>/feedback`), with payload `OK` on motor-command
success, `ALL_HARDWARE_STOPPED` for STOP, or an `ERROR_*` reason on
failure; when the connection is down it publishes nothing. -/
theorem C4_feedback_exactly_one (topic message : String) (now : Nat) (hw : Hw)
    (h : strEndsWith topic "/status" = false) :
    ((mqttCallback topic message true now hw).2.length = 1 ∧
     ∀ p ∈ (mqttCallback topic message true now hw).2, p.topic = BASE_TOPIC ++ "status") ∧
    (mqttCallback topic message false now hw).2 = [] := by
  simp [mqttCallback, h]

/-- Claim C4, witness for the amended theorem. -/
theorem C4_feedback_exactly_one_witness :
    (strEndsWith "room1/motor1" "/status" = false) ∧
    ((mqttCallback "room1/motor1" "ON" true 0 initialHw).2.length = 1 ∧
     ∀ p ∈ (mqttCallback "room1/motor1" "ON" true 0 initialHw).2, p.topic = BASE_TOPIC ++ "status") ∧
    (mqttCallback "room1/motor1" "ON" false 0 initialHw).2 = [] :=
  ⟨by decide, C4_feedback_exactly_one "room1/motor1" "ON" 0 initialHw (by decide)⟩

/-- State reached by dispatching `ON:80:L` to motor 1 (enabled, target
80): the starting point of the C5 counterexample. -/
def c5_hw : Hw := (mqttCallback "room1/motor1" "ON:80:L" true 0 initialHw).1

/-- Claim C5, counterexample: the malformed message `SPEED:abc`
(non-numeric speed) does not yield an ERROR — the dispatcher answers `OK`
and the motor state changes (`atoi "abc" = 0` overwrites `targetSpeed`
from 80 to 0). -/
theorem C5_counterexample :
    c5_hw.motor1.targetSpeed = 80 ∧
    (dispatchResult "room1/motor1" "SPEED:abc" 5 c5_hw).2 = "OK" ∧
    (dispatchResult "room1/motor1" "SPEED:abc" 5 c5_hw).1.motor1.targetSpeed = 0 := by
  decide

/-- Claim C5, amended: unknown verbs, unknown devices and non-matching
topics yield an explicit `ERROR_*` feedback and leave the hardware state
completely unchanged (the callback contains no restart path); malformed
parameters of a known verb, however, are not detected — they are coerced
by `atoi`/first-character and acknowledged with `OK`, possibly changing
state.  Formally: whenever the dispatcher's feedback starts with "ERROR",
the state is unchanged. -/
theorem C5_error_no_state_change (topic message : String) (now : Nat) (hw : Hw)
    (h : strStartsWith (dispatchResult topic message now hw).2 "ERROR" = true) :
    (dispatchResult topic message now hw).1 = hw := by
  have hOK : strStartsWith "OK" "ERROR" = false := by decide
  have hAll : strStartsWith "ALL_HARDWARE_STOPPED" "ERROR" = false := by decide
  simp only [dispatchResult] at h ⊢
  split_ifs at h ⊢ <;> simp_all

/-- Claim C5, witness for the amended theorem: an unknown verb on
motor 1 leaves the state unchanged. -/
theorem C5_error_no_state_change_witness :
    strStartsWith (dispatchResult "room1/motor1" "BLAH" 0 c5_hw).2 "ERROR" = true ∧
    (dispatchResult "room1/motor1" "BLAH" 0 c5_hw).1 = c5_hw :=
  ⟨by decide, C5_error_no_state_change "room1/motor1" "BLAH" 0 c5_hw (by decide)⟩

/-- Reachable state for the C2 counterexample: `ON:50:L` dispatched to
motor 1 followed by seven ticks brings it to `currentSpeed = 50`,
direction 'L'. -/
def c2_hw : Hw :=
  runTicks [15, 30, 45, 60, 75, 90, 105]
    ((mqttCallback "room1/motor1" "ON:50:L" true 0 initialHw).1)

/-- Claim C2, counterexample: with motor 1 running left at
`currentSpeed = 50`, the command `ON:50:R` changes the direction field to
'R' immediately — while `currentSpeed = 50 ≠ 0` — and does not enter the
pending-reversal mode. -/
theorem C2_counterexample :
    c2_hw.motor1.currentSpeed = 50 ∧ c2_hw.motor1.direction = 'L' ∧
    (mqttCallback "room1/motor1" "ON:50:R" true 200 c2_hw).1.motor1.direction = 'R' ∧
    (mqttCallback "room1/motor1" "ON:50:R" true 200 c2_hw).1.motor1.currentSpeed = 50 ∧
    (mqttCallback "room1/motor1" "ON:50:R" true 200 c2_hw).1.motor1.pendingDirectionChange = false := by
  decide

/-- Claim C2, amended: under `OFF`, `SPEED` and `DIR` commands and under
the per-tick update, the direction field never changes while
`currentSpeed ≠ 0` (for `DIR` this needs `0 ≤ currentSpeed`, which holds
in every grammar-reachable state, and for the tick it needs that a
pending reversal and a timed ramp are not simultaneously active, which no
command sequence can produce); a `DIR` naming the opposite direction at
nonzero positive speed enters the pending-reversal mode with the
direction unchanged.  The `ON` command, however, overwrites the direction
immediately at any speed (see the counterexample). -/
theorem C2_direction_stable :
    (∀ (sp d r : String) (now : Nat) (m : MotorState),
      (controlMotorCore "OFF" sp d r now m).direction = m.direction ∧
      (controlMotorCore "SPEED" sp d r now m).direction = m.direction) ∧
    (∀ (sp d r : String) (now : Nat) (m : MotorState),
      0 ≤ m.currentSpeed →
      (controlMotorCore "DIR" sp d r now m).direction ≠ m.direction →
      m.currentSpeed = 0) ∧
    (∀ (now : Nat) (m : MotorState),
      ¬(m.pendingDirectionChange = true ∧ m.rampActive = true) →
      (stepMotor now m).state.direction ≠ m.direction →
      m.currentSpeed = 0) ∧
    (∀ (sp d r : String) (now : Nat) (m : MotorState),
      m.enabled = true → 0 < m.currentSpeed → headChar d ≠ m.direction →
      (controlMotorCore "DIR" sp d r now m).pendingDirectionChange = true ∧
      (controlMotorCore "DIR" sp d r now m).direction = m.direction ∧
      (controlMotorCore "DIR" sp d r now m).targetSpeed = 0) := by
  refine ⟨?_, ?_, ?_, ?_⟩
  · intro sp d r now m
    constructor <;> (simp only [controlMotorCore]; split_ifs <;> simp_all)
  · intro sp d r now m h0 hne
    simp only [controlMotorCore] at hne
    split_ifs at hne <;> simp_all <;> omega
  · intro now m hp hne
    simp only [stepMotor, stepMotorRest] at hne
    split_ifs at hne <;> simp_all
  · intro sp d r now m he hpos hdir
    simp only [controlMotorCore]
    split_ifs <;> simp_all

/-- Claim C2, witness for the amended theorem. -/
theorem C2_direction_stable_witness :
    (c2_hw.motor1.enabled = true ∧ (0 : Int) < c2_hw.motor1.currentSpeed ∧
     headChar "R" ≠ c2_hw.motor1.direction) ∧
    ((controlMotorCore "DIR" "50" "R" "0" 200 c2_hw.motor1).pendingDirectionChange = true ∧
     (controlMotorCore "DIR" "50" "R" "0" 200 c2_hw.motor1).direction = c2_hw.motor1.direction ∧
     (controlMotorCore "DIR" "50" "R" "0" 200 c2_hw.motor1).targetSpeed = 0) :=
  ⟨⟨by decide, by decide, by decide⟩,
   C2_direction_stable.2.2.2 "50" "R" "0" 200 c2_hw.motor1 (by decide) (by decide) (by decide)⟩

/-- Claim C6: when no timed ramp is active, one per-tick update changes
`currentSpeed` by at most `SMOOTH_STEP` and moves it toward the (possibly
just-restored) `targetSpeed` without overshooting: the new value lies
between the old `currentSpeed` and the new `targetSpeed`. -/
theorem C6_slew_bound (now : Nat) (m : MotorState) (h : m.rampActive = false) :
    ((stepMotor now m).state.currentSpeed - m.currentSpeed ≤ SMOOTH_STEP ∧
     m.currentSpeed - (stepMotor now m).state.currentSpeed ≤ SMOOTH_STEP) ∧
    (m.currentSpeed ≤ (stepMotor now m).state.targetSpeed →
      m.currentSpeed ≤ (stepMotor now m).state.currentSpeed ∧
      (stepMotor now m).state.currentSpeed ≤ (stepMotor now m).state.targetSpeed) ∧
    ((stepMotor now m).state.targetSpeed ≤ m.currentSpeed →
      (stepMotor now m).state.targetSpeed ≤ (stepMotor now m).state.currentSpeed ∧
      (stepMotor now m).state.currentSpeed ≤ m.currentSpeed) := by
  simp only [stepMotor, stepMotorRest, h, SMOOTH_STEP]
  split_ifs <;> simp_all <;> omega

/-- Concrete motor state for the C6 witness: enabled, stopped, target
80, no ramp. -/
def c6_m : MotorState :=
  { initialMotorState with enabled := true, speed := 80, targetSpeed := 80, direction := 'L' }

/-- Claim C6, witness: accelerating from 0 toward 80 moves exactly one
step of 8. -/
theorem C6_slew_bound_witness :
    (c6_m.rampActive = false) ∧
    (((stepMotor 15 c6_m).state.currentSpeed - c6_m.currentSpeed ≤ SMOOTH_STEP ∧
      c6_m.currentSpeed - (stepMotor 15 c6_m).state.currentSpeed ≤ SMOOTH_STEP) ∧
     (c6_m.currentSpeed ≤ (stepMotor 15 c6_m).state.targetSpeed →
       c6_m.currentSpeed ≤ (stepMotor 15 c6_m).state.currentSpeed ∧
       (stepMotor 15 c6_m).state.currentSpeed ≤ (stepMotor 15 c6_m).state.targetSpeed) ∧
     ((stepMotor 15 c6_m).state.targetSpeed ≤ c6_m.currentSpeed →
       (stepMotor 15 c6_m).state.targetSpeed ≤ (stepMotor 15 c6_m).state.currentSpeed ∧
       (stepMotor 15 c6_m).state.currentSpeed ≤ c6_m.currentSpeed)) :=
  ⟨rfl, C6_slew_bound 15 c6_m rfl⟩

/-- C7 scenario, step 1: `ON:80:L` dispatched to motor 1 at t = 0. -/
def c7_s1 : Hw := (mqttCallback "room1/motor1" "ON:80:L" true 0 initialHw).1

/-- C7 scenario, step 2: ten ticks bring motor 1 to speed 80 left. -/
def c7_s2 : Hw := runTicks [15, 30, 45, 60, 75, 90, 105, 120, 135, 150] c7_s1

/-- C7 scenario, step 3: `DIR:R` dispatched while running at 80. -/
def c7_s3 : Hw := (mqttCallback "room1/motor1" "DIR:R" true 160 c7_s2).1

def c7_decelTimes : List Nat := [165, 180, 195, 210, 225, 240, 255, 270, 285, 300]

/-- C7 scenario, step 4: deceleration ticks down to zero. -/
def c7_s4 : Hw := runTicks c7_decelTimes c7_s3

/-- C7 scenario, step 5: the tick after reaching zero applies the
reversal. -/
def c7_s5 : Hw := updateMotorSmoothly 315 c7_s4

def c7_accelTimes : List Nat := [330, 345, 360, 375, 390, 405, 420, 435, 450]

set_option maxRecDepth 100000

/-- Claim C7: after `ON:80:L` and then `DIR:R` while running at 80,
`targetSpeed` becomes 0 with the direction still 'L'; the motor
decelerates to 0 with the direction staying 'L' at every intermediate
tick (never an instantaneous flip at nonzero speed); only on the
subsequent tick does the direction become 'R' with `targetSpeed`
restored to 80 (`savedSpeed`), after which the motor accelerates to 80
in direction 'R'. -/
theorem C7_reversal_scenario :
    (c7_s2.motor1.currentSpeed = 80 ∧ c7_s2.motor1.direction = 'L') ∧
    (c7_s3.motor1.targetSpeed = 0 ∧ c7_s3.motor1.pendingDirectionChange = true ∧
     c7_s3.motor1.direction = 'L' ∧ c7_s3.motor1.currentSpeed = 80 ∧
     c7_s3.motor1.savedSpeed = 80) ∧
    traceTicks c7_decelTimes c7_s3 =
      [(72, 'L'), (64, 'L'), (56, 'L'), (48, 'L'), (40, 'L'),
       (32, 'L'), (24, 'L'), (16, 'L'), (8, 'L'), (0, 'L')] ∧
    (c7_s5.motor1.direction = 'R' ∧ c7_s5.motor1.targetSpeed = 80 ∧
     c7_s5.motor1.currentSpeed = 8) ∧
    traceTicks c7_accelTimes c7_s5 =
      [(16, 'R'), (24, 'R'), (32, 'R'), (40, 'R'), (48, 'R'),
       (56, 'R'), (64, 'R'), (72, 'R'), (80, 'R')] := by
  decide

/-- Claim C10: when motor 1's timed ramp is active, its end time has not
been reached, and motor 1's `SMOOTH_DELAY` has elapsed, the per-tick
update takes the early `return` after motor 1's interpolation: motor 2's
state is left completely unchanged and no PWM write for motor 2 occurs. -/
theorem C10_ramp_early_return_frames_motor2 (now : Nat) (hw : Hw)
    (h1 : hw.motor1.rampActive = true)
    (h2 : now - hw.motor1.lastUpdate ≥ SMOOTH_DELAY)
    (h3 : ¬ now ≥ hw.motor1.rampStartTime + hw.motor1.rampDurationMs) :
    (updateMotorSmoothly now hw).motor2 = hw.motor2 ∧
    (updateMotorSmoothly now hw).pins.motor2Left = hw.pins.motor2Left ∧
    (updateMotorSmoothly now hw).pins.motor2Right = hw.pins.motor2Right ∧
    (updateMotorSmoothly now hw).pins.motor2Enable = hw.pins.motor2Enable := by
  simp only [updateMotorSmoothly, stepMotor, h1, if_pos h2, if_neg h3, if_true, applyWrite,
    updateMotorPWM, mapConstrain]
  split_ifs <;> simp_all

/-- Claim C10, witness: a motor-1 ramp from t = 0 over 5000 ms, updated
at t = 100. -/
def c10_m1 : MotorState :=
  { initialMotorState with
    enabled := true
    rampActive := true
    rampStartTime := 0
    rampDurationMs := 5000
    targetSpeed := 80
    speed := 80
    direction := 'L' }

def c10_m2 : MotorState :=
  { initialMotorState with
    enabled := true
    currentSpeed := 40
    targetSpeed := 60
    direction := 'R' }

def c10_hw : Hw := { initialHw with motor1 := c10_m1, motor2 := c10_m2 }

theorem C10_ramp_early_return_frames_motor2_witness :
    (c10_hw.motor1.rampActive = true ∧ 100 - c10_hw.motor1.lastUpdate ≥ SMOOTH_DELAY ∧
     ¬ (100 : Nat) ≥ c10_hw.motor1.rampStartTime + c10_hw.motor1.rampDurationMs) ∧
    ((updateMotorSmoothly 100 c10_hw).motor2 = c10_hw.motor2 ∧
     (updateMotorSmoothly 100 c10_hw).pins.motor2Left = c10_hw.pins.motor2Left ∧
     (updateMotorSmoothly 100 c10_hw).pins.motor2Right = c10_hw.pins.motor2Right ∧
     (updateMotorSmoothly 100 c10_hw).pins.motor2Enable = c10_hw.pins.motor2Enable) :=
  ⟨⟨by decide, by decide, by decide⟩,
   C10_ramp_early_return_frames_motor2 100 c10_hw (by decide) (by decide) (by decide)⟩

/-- Claim C1: in a tick where the connection monitor samples (its check
interval has elapsed) and either the WiFi link transitions from connected
to disconnected or the broker connection has been lost, the safety
monitor forces both motors to the all-off state in that same tick:
disabled, `currentSpeed = 0`, `targetSpeed = 0`, and all PWM outputs and
enable lines low (`pins = initialPins`). -/
theorem C1_disconnect_forces_all_off (wifiStat clientConn : Bool) (now : Nat)
    (c : ConnState) (hw : Hw)
    (h1 : now - c.lastConnectionCheck ≥ CONNECTION_CHECK_INTERVAL)
    (h2 : (c.wifiConnected = true ∧ wifiStat = false) ∨
          (c.mqttConnected = true ∧ clientConn = false)) :
    (safetyMonitorTick wifiStat clientConn now c hw).2.motor1.enabled = false ∧
    (safetyMonitorTick wifiStat clientConn now c hw).2.motor1.currentSpeed = 0 ∧
    (safetyMonitorTick wifiStat clientConn now c hw).2.motor1.targetSpeed = 0 ∧
    (safetyMonitorTick wifiStat clientConn now c hw).2.motor2.enabled = false ∧
    (safetyMonitorTick wifiStat clientConn now c hw).2.motor2.currentSpeed = 0 ∧
    (safetyMonitorTick wifiStat clientConn now c hw).2.motor2.targetSpeed = 0 ∧
    (safetyMonitorTick wifiStat clientConn now c hw).2.pins = initialPins := by
  simp only [safetyMonitorTick]
  split_ifs with hcond
  · simp [turnOffHardware, initialMotorState]
  · exfalso
    apply hcond
    rcases h2 with ⟨hwc, hs⟩ | ⟨hm, hc⟩
    · refine Or.inl ⟨hwc, ?_⟩
      simp only [monitorConnections]
      split_ifs <;> simp_all
    · exact Or.inr ⟨hm, hc⟩

/-- Connectivity flags for the C1 witness: both layers believed up, last
check at t = 0. -/
def conn_c1 : ConnState :=
  { wifiConnected := true, mqttConnected := true, lastConnectionCheck := 0 }

/-- Claim C1, witness: WiFi flag up, physical link down, check due, motor
running — both motors end all-off. -/
theorem C1_disconnect_forces_all_off_witness :
    ((5000 : Nat) - conn_c1.lastConnectionCheck ≥ CONNECTION_CHECK_INTERVAL ∧
     ((conn_c1.wifiConnected = true ∧ false = false) ∨
      (conn_c1.mqttConnected = true ∧ true = false))) ∧
    ((safetyMonitorTick false true 5000 conn_c1 c2_hw).2.motor1.enabled = false ∧
     (safetyMonitorTick false true 5000 conn_c1 c2_hw).2.motor1.currentSpeed = 0 ∧
     (safetyMonitorTick false true 5000 conn_c1 c2_hw).2.motor1.targetSpeed = 0 ∧
     (safetyMonitorTick false true 5000 conn_c1 c2_hw).2.motor2.enabled = false ∧
     (safetyMonitorTick false true 5000 conn_c1 c2_hw).2.motor2.currentSpeed = 0 ∧
     (safetyMonitorTick false true 5000 conn_c1 c2_hw).2.motor2.targetSpeed = 0 ∧
     (safetyMonitorTick false true 5000 conn_c1 c2_hw).2.pins = initialPins) :=
  ⟨⟨by decide, Or.inl ⟨rfl, rfl⟩⟩,
   C1_disconnect_forces_all_off false true 5000 conn_c1 c2_hw (by decide) (Or.inl ⟨rfl, rfl⟩)⟩

/-- The backoff invariant of the MQTT layer: the retry interval equals
`min(base * 2^k, cap)` where `k = mqttAttempts` is the number of
consecutive failures since the last success. -/
def mqttBackoffInv (s : MqttState) : Prop :=
  s.mqttRetryInterval = min (MQTT_RETRY_INTERVAL * 2 ^ s.mqttAttempts) MAX_RETRY_INTERVAL

/-- The backoff invariant of the WiFi layer (RELAY variant). -/
def wifiBackoffInv (s : WifiState) : Prop :=
  s.wifiRetryInterval = min (WIFI_RETRY_INTERVAL * 2 ^ s.wifiAttempts) MAX_RETRY_INTERVAL

theorem min_double_min (x c : Nat) : min (min x c * 2) c = min (x * 2) c := by
  omega

/-- Claim C8: for both reconnect layers, the retry interval after k
consecutive failures equals `min(base * 2^k, cap)` — stated as: the
invariant holds initially and is preserved by every non-restarting step
(the attempt counters count the consecutive failures) — the interval is
monotonically non-decreasing across a failing step, and a successful
attempt resets the interval to the base value and the counter to 0. -/
theorem C8_backoff :
    (mqttBackoffInv initialMqttState ∧ wifiBackoffInv initialWifiState) ∧
    (∀ (w ws succ : Bool) (now : Nat) (s s' : MqttState),
      mqttBackoffInv s → connectToMqtt w ws succ now s = some s' →
      mqttBackoffInv s' ∧ (succ = false → s.mqttRetryInterval ≤ s'.mqttRetryInterval)) ∧
    (∀ (ws succ : Bool) (now : Nat) (s s' : WifiState),
      wifiBackoffInv s → reconnectWiFi ws succ now s = some s' →
      wifiBackoffInv s' ∧ (succ = false → s.wifiRetryInterval ≤ s'.wifiRetryInterval)) ∧
    (∀ (now : Nat) (s s' : MqttState),
      s.clientConnected = false → now - s.lastMqttAttempt ≥ s.mqttRetryInterval →
      connectToMqtt true true true now s = some s' →
      s'.mqttRetryInterval = MQTT_RETRY_INTERVAL ∧ s'.mqttAttempts = 0) ∧
    (∀ (now : Nat) (s s' : WifiState),
      now - s.lastWifiAttempt ≥ s.wifiRetryInterval →
      reconnectWiFi false true now s = some s' →
      s'.wifiRetryInterval = WIFI_RETRY_INTERVAL ∧ s'.wifiAttempts = 0) := by
  refine ⟨⟨by unfold mqttBackoffInv; decide, by unfold wifiBackoffInv; decide⟩, ?_, ?_, ?_, ?_⟩
  · intro w ws succ now s s' hInv hstep
    simp only [mqttBackoffInv] at hInv ⊢
    simp only [connectToMqtt] at hstep
    split_ifs at hstep with hA hB hC
    · simp only [Option.some.injEq] at hstep
      subst hstep
      exact ⟨hInv, fun _ => le_refl _⟩
    · simp only [Option.some.injEq] at hstep
      subst hstep
      refine ⟨?_, fun hf => by simp [hf] at hC⟩
      dsimp only
      decide
    · simp only [Option.some.injEq] at hstep
      subst hstep
      have h30 : s.mqttRetryInterval ≤ MAX_RETRY_INTERVAL := by
        rw [hInv]
        exact min_le_right _ _
      refine ⟨?_, fun _ => ?_⟩
      · dsimp only
        rw [hInv, min_double_min, mul_assoc, ← pow_succ]
      · dsimp only
        omega
    · simp only [Option.some.injEq] at hstep
      subst hstep
      exact ⟨hInv, fun _ => le_refl _⟩
  · intro ws succ now s s' hInv hstep
    simp only [wifiBackoffInv] at hInv ⊢
    simp only [reconnectWiFi] at hstep
    split_ifs at hstep with hA hB
    · simp only [Option.some.injEq] at hstep
      subst hstep
      refine ⟨?_, fun hf => by simp [hf] at hB⟩
      dsimp only
      decide
    · simp only [Option.some.injEq] at hstep
      subst hstep
      have h30 : s.wifiRetryInterval ≤ MAX_RETRY_INTERVAL := by
        rw [hInv]
        exact min_le_right _ _
      refine ⟨?_, fun _ => ?_⟩
      · dsimp only
        rw [hInv, min_double_min, mul_assoc, ← pow_succ]
      · dsimp only
        omega
    · simp only [Option.some.injEq] at hstep
      subst hstep
      exact ⟨hInv, fun _ => le_refl _⟩
  · intro now s s' hc hdue hstep
    simp only [connectToMqtt] at hstep
    split_ifs at hstep <;>
      first
        | (simp only [Option.some.injEq] at hstep
           subst hstep
           exact ⟨rfl, rfl⟩)
        | simp_all
  · intro now s s' hdue hstep
    simp only [reconnectWiFi] at hstep
    split_ifs at hstep <;>
      first
        | (simp only [Option.some.injEq] at hstep
           subst hstep
           exact ⟨rfl, rfl⟩)
        | simp_all

/-- C8 witness state: the result of one failing due MQTT attempt from the
fresh state. -/
def c8_s1 : MqttState :=
  { clientConnected := false, mqttConnected := false, mqttAttempts := 1,
    mqttRetryInterval := 4000, lastMqttAttempt := 5000 }

/-- Claim C8, witness: a failing due attempt from the fresh state doubles
the interval to `min(2000 * 2^1, 30000) = 4000`. -/
theorem C8_backoff_witness :
    (mqttBackoffInv initialMqttState ∧
     connectToMqtt true true false 5000 initialMqttState = some c8_s1) ∧
    (mqttBackoffInv c8_s1 ∧
     (false = false → initialMqttState.mqttRetryInterval ≤ c8_s1.mqttRetryInterval)) :=
  ⟨⟨by unfold mqttBackoffInv; decide, by decide⟩,
   C8_backoff.2.1 true true false 5000 initialMqttState c8_s1
     (by unfold mqttBackoffInv; decide) (by decide)⟩

/-- The strengthened speed invariant for C9: all speed-carrying fields in
[0, 100] and no timed ramp active (the MQTT dispatcher can never activate
one, see C3). -/
def SpeedInv (m : MotorState) : Prop :=
  0 ≤ m.speed ∧ m.speed ≤ 100 ∧ 0 ≤ m.currentSpeed ∧ m.currentSpeed ≤ 100 ∧
  0 ≤ m.targetSpeed ∧ m.targetSpeed ≤ 100 ∧ 0 ≤ m.savedSpeed ∧ m.savedSpeed ≤ 100 ∧
  m.rampActive = false

theorem speedInv_initial : SpeedInv initialMotorState := by
  norm_num [SpeedInv, initialMotorState]

theorem speedInv_controlMotorCore (cmd sp d : String) (now : Nat) (m : MotorState)
    (hm : SpeedInv m) (h0 : 0 ≤ atoi sp) (h1 : atoi sp ≤ 100) :
    SpeedInv (controlMotorCore cmd sp d "0" now m) := by
  have hz : toUInt32 (atoi "0") = 0 := by decide
  obtain ⟨a1, a2, a3, a4, a5, a6, a7, a8, a9⟩ := hm
  simp only [SpeedInv, controlMotorCore, hz]
  split_ifs <;> simp_all <;> omega

theorem speedInv_stepMotor (now : Nat) (m : MotorState) (hm : SpeedInv m) :
    SpeedInv (stepMotor now m).state := by
  obtain ⟨a1, a2, a3, a4, a5, a6, a7, a8, a9⟩ := hm
  simp only [SpeedInv, stepMotor, stepMotorRest, SMOOTH_STEP]
  split_ifs <;> simp_all <;> omega

/-- Both motors satisfy the speed invariant. -/
def HwInv (hw : Hw) : Prop := SpeedInv hw.motor1 ∧ SpeedInv hw.motor2

theorem hwInv_mqttCallback (topic message : String) (conn : Bool) (now : Nat) (hw : Hw)
    (hm : HwInv hw) (hs0 : 0 ≤ msgSpeedVal message) (hs1 : msgSpeedVal message ≤ 100) :
    HwInv (mqttCallback topic message conn now hw).1 := by
  obtain ⟨hm1, hm2⟩ := hm
  simp only [msgSpeedVal] at hs0 hs1
  have key : HwInv (dispatchResult topic message now hw).1 := by
    simp only [dispatchResult]
    split_ifs with t1 t2 t3 t4 t5 t6
    · exact ⟨speedInv_initial, speedInv_initial⟩
    · refine ⟨?_, ?_⟩
      · rw [controlMotor1_motor1]
        exact speedInv_controlMotorCore _ _ _ _ _ hm1 hs0 hs1
      · rw [controlMotor1_motor2]
        exact hm2
    · exact ⟨hm1, hm2⟩
    · refine ⟨?_, ?_⟩
      · rw [controlMotor2_motor1]
        exact hm1
      · rw [controlMotor2_motor2]
        exact speedInv_controlMotorCore _ _ _ _ _ hm2 hs0 hs1
    · exact ⟨hm1, hm2⟩
    · exact ⟨hm1, hm2⟩
    · exact ⟨hm1, hm2⟩
  simp only [mqttCallback]
  split_ifs
  · exact ⟨hm1, hm2⟩
  · exact key
  · exact key

theorem hwInv_updateMotorSmoothly (now : Nat) (hw : Hw) (hm : HwInv hw) :
    HwInv (updateMotorSmoothly now hw) := by
  obtain ⟨hm1, hm2⟩ := hm
  simp only [updateMotorSmoothly]
  split_ifs
  · exact ⟨speedInv_stepMotor now hw.motor1 hm1, hm2⟩
  · exact ⟨speedInv_stepMotor now hw.motor1 hm1, speedInv_stepMotor now hw.motor2 hm2⟩

theorem hwInv_run (evs : List Event) (hw : Hw) (hm : HwInv hw)
    (hok : ∀ e ∈ evs, eventOK e) : HwInv (run evs hw) := by
  induction evs generalizing hw with
  | nil => exact hm
  | cons e rest ih =>
    have he : eventOK e := hok e (List.mem_cons_self _ _)
    have hrest : ∀ e' ∈ rest, eventOK e' := fun e' h => hok e' (List.mem_cons_of_mem _ h)
    cases e with
    | message topic payload n =>
      exact ih (stepEvent hw (Event.message topic payload n))
        (hwInv_mqttCallback topic payload true n hw ⟨hm.1, hm.2⟩ he.1 he.2) hrest
    | tick n =>
      exact ih (stepEvent hw (Event.tick n))
        (hwInv_updateMotorSmoothly n hw hm) hrest

/-- Claim C9, counterexample: the dispatched command `ON:200:L` (a single
message from the all-off initial state) drives motor 1's `targetSpeed` to
200, outside [0, 100] — the dispatcher never range-checks the speed. -/
theorem C9_counterexample :
    ¬ (run [Event.message "room1/motor1" "ON:200:L" 0] initialHw).motor1.targetSpeed ≤ 100 := by
  decide

/-- Claim C9, amended: provided every dispatched message carries a speed
parameter within [0, 100] (as the payload grammar `ON[:<speed 0-100>...]`
/ `SPEED:<0-100>` prescribes — the code itself never range-checks), every
state reachable from the all-off initial state by dispatched commands and
per-tick updates has both motors' `currentSpeed` and `targetSpeed` within
[0, 100]. -/
theorem C9_speed_bounds (evs : List Event) (hok : ∀ e ∈ evs, eventOK e) :
    (0 ≤ (run evs initialHw).motor1.currentSpeed ∧
     (run evs initialHw).motor1.currentSpeed ≤ 100) ∧
    (0 ≤ (run evs initialHw).motor1.targetSpeed ∧
     (run evs initialHw).motor1.targetSpeed ≤ 100) ∧
    (0 ≤ (run evs initialHw).motor2.currentSpeed ∧
     (run evs initialHw).motor2.currentSpeed ≤ 100) ∧
    (0 ≤ (run evs initialHw).motor2.targetSpeed ∧
     (run evs initialHw).motor2.targetSpeed ≤ 100) := by
  have h := hwInv_run evs initialHw ⟨speedInv_initial, speedInv_initial⟩ hok
  obtain ⟨⟨_, _, b3, b4, b5, b6, _, _, _⟩, ⟨_, _, c3, c4, c5, c6, _, _, _⟩⟩ := h
  exact ⟨⟨b3, b4⟩, ⟨b5, b6⟩, ⟨c3, c4⟩, ⟨c5, c6⟩⟩

/-- Claim C9, witness for the amended theorem: `ON:80:L` then one tick. -/
theorem C9_speed_bounds_witness :
    (∀ e ∈ ([Event.message "room1/motor1" "ON:80:L" 0, Event.tick 15] : List Event), eventOK e) ∧
    ((0 ≤ (run [Event.message "room1/motor1" "ON:80:L" 0, Event.tick 15] initialHw).motor1.currentSpeed ∧
      (run [Event.message "room1/motor1" "ON:80:L" 0, Event.tick 15] initialHw).motor1.currentSpeed ≤ 100) ∧
     (0 ≤ (run [Event.message "room1/motor1" "ON:80:L" 0, Event.tick 15] initialHw).motor1.targetSpeed ∧
      (run [Event.message "room1/motor1" "ON:80:L" 0, Event.tick 15] initialHw).motor1.targetSpeed ≤ 100) ∧
     (0 ≤ (run [Event.message "room1/motor1" "ON:80:L" 0, Event.tick 15] initialHw).motor2.currentSpeed ∧
      (run [Event.message "room1/motor1" "ON:80:L" 0, Event.tick 15] initialHw).motor2.currentSpeed ≤ 100) ∧
     (0 ≤ (run [Event.message "room1/motor1" "ON:80:L" 0, Event.tick 15] initialHw).motor2.targetSpeed ∧
      (run [Event.message "room1/motor1" "ON:80:L" 0, Event.tick 15] initialHw).motor2.targetSpeed ≤ 100)) :=
  ⟨by decide, C9_speed_bounds [Event.message "room1/motor1" "ON:80:L" 0, Event.tick 15] (by decide)⟩

end Museum
